import Mathlib

/-!
Shallow embedding of `src/app8.py` (Portland Heritage Trees dashboard):
the fetch normalization loop (`get_clean_data`), the filter pipeline
(`df_filtered`), the statistics metrics, the visualization payloads and
the CSV export, together with theorems settling the specification claims.

Pandas semantics modelled here:
* a numeric cell is either a finite rational or NaN (`Val.nan`), NaN also
  standing for a missing value;
* every comparison (`>=`, `<=`, `==`) involving NaN is `false`;
* `Series.mean`/`min`/`max`/`nunique` skip NaN values.
-/

namespace PortlandTrees

/-- A pandas numeric cell: a finite value or NaN (missing / non-finite). -/
inductive Val where
  | nan : Val
  | num (q : Rat) : Val
deriving DecidableEq

/-- `series >= x` on one cell: false when the cell is NaN. -/
def Val.geNum : Val → Rat → Bool
  | .nan, _ => false
  | .num q, x => x ≤ q

/-- `series <= x` on one cell: false when the cell is NaN. -/
def Val.leNum : Val → Rat → Bool
  | .nan, _ => false
  | .num q, x => q ≤ x

/-- One row of the DataFrame built by `get_clean_data`: the columns the
pipeline reads (`COMMON`, `HEIGHT`, `DIAMETER`, `lat`, `lon`).
A missing `COMMON` (pandas NaN) is `none`. -/
structure TreeRecord where
  common : Option String
  height : Val
  diameter : Val
  lat : Val
  lon : Val
deriving DecidableEq

/-- The sidebar selections used by the `df_filtered` pipeline:
`choice` from the species selectbox ("All" is the no-filter sentinel) and
the two inclusive slider ranges. -/
structure FilterCriteria where
  choice : String
  heightLo : Rat
  heightHi : Rat
  diameterLo : Rat
  diameterHi : Rat
deriving DecidableEq

/-- Lines 82-83: `if choice != "All": df_filtered = df_filtered[df_filtered['COMMON'] == choice]`. -/
def speciesStage (choice : String) (ds : List TreeRecord) : List TreeRecord :=
  if choice = "All" then ds else ds.filter (fun r => r.common == some choice)

/-- Lines 86-89: `df_filtered[(df_filtered['HEIGHT'] >= lo) & (df_filtered['HEIGHT'] <= hi)]`. -/
def heightStage (lo hi : Rat) (ds : List TreeRecord) : List TreeRecord :=
  ds.filter (fun r => r.height.geNum lo && r.height.leNum hi)

/-- Lines 92-95: the same range filter on the `DIAMETER` column. -/
def diameterStage (lo hi : Rat) (ds : List TreeRecord) : List TreeRecord :=
  ds.filter (fun r => r.diameter.geNum lo && r.diameter.leNum hi)

/-- Lines 79-95: the Filter Engine, `df.copy()` then the three filters in
sequence. -/
def applyFilter (ds : List TreeRecord) (c : FilterCriteria) : List TreeRecord :=
  diameterStage c.diameterLo c.diameterHi
    (heightStage c.heightLo c.heightHi (speciesStage c.choice ds))

/-- Spec-side reading of an inclusive numeric range test: the cell holds a
finite value lying within `[lo, hi]`. -/
def inRange (v : Val) (lo hi : Rat) : Prop :=
  ∃ q, v = .num q ∧ lo ≤ q ∧ q ≤ hi

lemma rangeCheck_iff (v : Val) (lo hi : Rat) :
    (v.geNum lo && v.leNum hi) = true ↔ inRange v lo hi := by
  cases v with
  | nan => simp [Val.geNum, Val.leNum, inRange]
  | num q => simp [Val.geNum, Val.leNum, inRange]

lemma mem_speciesStage (choice : String) (ds : List TreeRecord) (r : TreeRecord) :
    r ∈ speciesStage choice ds ↔
      r ∈ ds ∧ (choice = "All" ∨ r.common = some choice) := by
  unfold speciesStage
  by_cases h : choice = "All"
  · simp [h]
  · simp [h, List.mem_filter]

lemma mem_applyFilter (ds : List TreeRecord) (c : FilterCriteria) (r : TreeRecord) :
    r ∈ applyFilter ds c ↔
      r ∈ ds ∧ (c.choice = "All" ∨ r.common = some c.choice)
        ∧ inRange r.height c.heightLo c.heightHi
        ∧ inRange r.diameter c.diameterLo c.diameterHi := by
  unfold applyFilter heightStage diameterStage
  simp only [List.mem_filter, rangeCheck_iff, mem_speciesStage]
  tauto

lemma speciesStage_sublist (choice : String) (ds : List TreeRecord) :
    (speciesStage choice ds).Sublist ds := by
  unfold speciesStage
  by_cases h : choice = "All"
  · simp [h]
  · simp [h, List.filter_sublist]

/-- C1: for every dataset and criteria, the Filter Engine's output is a
subsequence of the input dataset in the input's original order; in this
pure embedding the input list is untouched (the code filters a `df.copy()`
and pandas boolean selection allocates new frames). -/
theorem filterEngine_sublist (ds : List TreeRecord) (c : FilterCriteria) :
    (applyFilter ds c).Sublist ds := by
  unfold applyFilter heightStage diameterStage
  exact ((List.filter_sublist _).trans (List.filter_sublist _)).trans
    (speciesStage_sublist c.choice ds)

/-- C3: a record passes the species stage iff the selected species is the
"All" sentinel or its `COMMON` value equals the selection exactly
(case-sensitively); a missing `COMMON` never equals a selection. -/
theorem speciesPredicate_iff (choice : String) (ds : List TreeRecord) (r : TreeRecord) :
    r ∈ speciesStage choice ds ↔
      r ∈ ds ∧ (choice = "All" ∨ r.common = some choice) :=
  mem_speciesStage choice ds r

/-- C4: a record is in the filtered subset iff it passes the species
predicate AND its height lies in the height range inclusive AND its
diameter lies in the diameter range inclusive; `inRange` demands a
present (non-NaN) value, so a missing height or diameter excludes the
record. -/
theorem filteredSubset_mem_iff (ds : List TreeRecord) (c : FilterCriteria) (r : TreeRecord) :
    r ∈ applyFilter ds c ↔
      r ∈ ds ∧ (c.choice = "All" ∨ r.common = some c.choice)
        ∧ inRange r.height c.heightLo c.heightHi
        ∧ inRange r.diameter c.diameterLo c.diameterHi :=
  mem_applyFilter ds c r

/-- C10: a record with a missing (NaN) height or diameter is excluded from
the filtered subset under every criteria: NaN fails both inclusive
comparisons regardless of the range bounds or the species choice. -/
theorem nan_never_filtered (ds : List TreeRecord) (c : FilterCriteria) (r : TreeRecord)
    (h : r.height = Val.nan ∨ r.diameter = Val.nan) :
    r ∉ applyFilter ds c := by
  intro hmem
  rcases (mem_applyFilter ds c r).1 hmem with ⟨-, -, ⟨qh, hqh, -, -⟩, ⟨qd, hqd, -, -⟩⟩
  rcases h with h | h
  · rw [h] at hqh; cases hqh
  · rw [h] at hqd; cases hqd

/-- Witness for C10 at a concrete record and criteria. -/
theorem nan_never_filtered_witness :
    let r : TreeRecord := ⟨some "Oak", Val.nan, Val.num 20, Val.num 45, Val.num (-122)⟩
    r ∉ applyFilter [r] ⟨"All", -1000, 1000, -1000, 1000⟩ :=
  nan_never_filtered _ _ _ (Or.inl rfl)

/-! ## Aggregator (lines 147-153) -/

/-- The present (non-NaN) values of a numeric column. -/
def presentVals (vs : List Val) : List Rat :=
  vs.filterMap (fun v => match v with | .nan => none | .num q => some q)

/-- pandas `Series.mean`: arithmetic mean skipping NaN; NaN when no value
is present (in particular on an empty column). -/
def seriesMean (vs : List Val) : Val :=
  if (presentVals vs).length = 0 then .nan
  else .num ((presentVals vs).sum / (presentVals vs).length)

/-- pandas `Series.nunique`: the number of distinct non-NaN values. -/
def nunique (vs : List (Option String)) : Nat :=
  ((vs.filterMap id).dedup).length

/-- The four metrics rendered in the stats column. -/
structure Stats where
  count : Nat
  distinctSpecies : Nat
  meanHeight : Val
  meanDiameter : Val
deriving DecidableEq

/-- Lines 148-153: `len(df_filtered)`, `df_filtered['COMMON'].nunique()`,
`df_filtered['HEIGHT'].mean()`, `df_filtered['DIAMETER'].mean()`. -/
def summarize (s : List TreeRecord) : Stats :=
  { count := s.length
  , distinctSpecies := nunique (s.map TreeRecord.common)
  , meanHeight := seriesMean (s.map TreeRecord.height)
  , meanDiameter := seriesMean (s.map TreeRecord.diameter) }

/-- Spec-side mean, following the spec's words: the arithmetic mean over
the present values only, undefined (`none`) when there are none. -/
def specMean (xs : List Rat) : Option Rat :=
  if xs.length = 0 then none else some (xs.sum / xs.length)

/-- The NaN sentinel for an undefined mean. -/
def valOfMean : Option Rat → Val
  | none => .nan
  | some q => .num q

/-- C5: the Aggregator's count is the row count of the subset, its
distinct-species count is the number of unique non-missing `COMMON`
values (hence at most the count), and each mean is the arithmetic mean
over the present values of its column only. -/
theorem aggregator_correct (s : List TreeRecord) :
    (summarize s).count = s.length
    ∧ (summarize s).distinctSpecies = (s.filterMap TreeRecord.common).toFinset.card
    ∧ (summarize s).distinctSpecies ≤ (summarize s).count
    ∧ (summarize s).meanHeight = valOfMean (specMean (presentVals (s.map TreeRecord.height)))
    ∧ (summarize s).meanDiameter = valOfMean (specMean (presentVals (s.map TreeRecord.diameter))) := by
  refine ⟨rfl, ?_, ?_, ?_, ?_⟩
  · simp [summarize, nunique, List.filterMap_map, List.card_toFinset, Function.comp]
  · calc ((s.map TreeRecord.common).filterMap id).dedup.length
        ≤ ((s.map TreeRecord.common).filterMap id).length :=
          (List.dedup_sublist _).length_le
      _ ≤ (s.map TreeRecord.common).length := List.length_filterMap_le _ _
      _ = s.length := List.length_map _ _
  · by_cases h : (presentVals (s.map TreeRecord.height)).length = 0 <;>
      simp [summarize, seriesMean, specMean, valOfMean, h]
  · by_cases h : (presentVals (s.map TreeRecord.diameter)).length = 0 <;>
      simp [summarize, seriesMean, specMean, valOfMean, h]

/-- C6: on the empty subset the Aggregator reports count 0 and the NaN
sentinel for both means (pandas `mean` of an empty series), rather than
raising a division-by-zero error. -/
theorem aggregator_empty_subset :
    summarize [] =
      { count := 0, distinctSpecies := 0, meanHeight := Val.nan, meanDiameter := Val.nan } := by
  rfl

/-! ## Dataset Fetcher normalization (lines 22-37, `get_clean_data`) -/

/-- One GeoJSON feature: the property fields the pipeline reads plus the
geometry's coordinate array (`[lon, lat]`); `coordinates = none` models a
feature whose `geometry` is missing or null, so that subscripting it
raises. -/
structure Feature where
  common : Option String
  height : Val
  diameter : Val
  coordinates : Option (List Val)
deriving DecidableEq

/-- Lines 30-33 for one feature: `props['lat'] = f['geometry']['coordinates'][1]`
and `props['lon'] = f['geometry']['coordinates'][0]`. Returns `none` when
the subscripting raises: missing/null geometry, or fewer than two
coordinates. -/
def featureRow (f : Feature) : Option TreeRecord :=
  match f.coordinates with
  | none => none
  | some coords =>
    match coords[1]?, coords[0]? with
    | some la, some lo => some ⟨f.common, f.height, f.diameter, la, lo⟩
    | _, _ => none

/-- Lines 28-33: the `for f in response['features']` loop. An exception on
any feature escapes the loop, so the loop produces no row list at all
(`none`) as soon as one feature is malformed. -/
def rowsLoop : List Feature → Option (List TreeRecord)
  | [] => some []
  | f :: fs =>
    match featureRow f with
    | none => none
    | some r => (rowsLoop fs).map (fun rs => r :: rs)

/-- Lines 22-37, `get_clean_data`: an exception anywhere in the loop is
caught by the `except` branch, which returns an empty DataFrame. -/
def get_clean_data (features : List Feature) : List TreeRecord :=
  match rowsLoop features with
  | some rows => rows
  | none => []

/-- A feature with a missing geometry that the fetch loop trips over. -/
def badFeat : Feature := ⟨some "Oak", Val.num 50, Val.num 20, none⟩

/-- A well-formed feature in the same response. -/
def goodFeat : Feature := ⟨some "Pine", Val.num 80, Val.num 30, some [Val.num (-122), Val.num 45]⟩

/-- The record `goodFeat` normalizes to on its own. -/
def goodRow : TreeRecord := ⟨some "Pine", Val.num 80, Val.num 30, Val.num 45, Val.num (-122)⟩

/-- A feature whose latitude is non-finite (NaN). -/
def nanLatFeat : Feature := ⟨some "Elm", Val.num 10, Val.num 5, some [Val.num 0, Val.nan]⟩

/-- C2 counterexample: a response holding one malformed feature (missing
geometry) and one well-formed feature normalizes to the empty dataset —
the well-formed feature's record does not appear, so malformed features
are not dropped individually. Moreover a feature with a non-finite (NaN)
latitude is kept, not dropped. -/
theorem fetch_drop_counterexample :
    featureRow goodFeat = some goodRow
    ∧ goodRow ∉ get_clean_data [badFeat, goodFeat]
    ∧ get_clean_data [nanLatFeat] = [⟨some "Elm", Val.num 10, Val.num 5, Val.nan, Val.num 0⟩] := by
  decide

lemma rowsLoop_all_ok {features : List Feature}
    (h : ∀ f ∈ features, (featureRow f).isSome) :
    rowsLoop features = some (features.filterMap featureRow) := by
  induction features with
  | nil => rfl
  | cons f fs ih =>
    have hf := h f (List.mem_cons_self f fs)
    obtain ⟨r, hr⟩ := Option.isSome_iff_exists.1 hf
    have hfs := ih (fun g hg => h g (List.mem_cons_of_mem f hg))
    simp [rowsLoop, hr, hfs, List.filterMap_cons, hr]

lemma rowsLoop_aborts {features : List Feature} {f : Feature}
    (hf : f ∈ features) (hbad : featureRow f = none) :
    rowsLoop features = none := by
  induction features with
  | nil => cases hf
  | cons g gs ih =>
    rcases List.mem_cons.1 hf with h | h
    · subst h; simp [rowsLoop, hbad]
    · unfold rowsLoop
      cases hg : featureRow g with
      | none => rfl
      | some r => simp [ih h]

/-- C2 amended: the fetch is all-or-nothing. When every feature of the
response is well-formed, each is mapped to its record; when any feature is
malformed (missing geometry or fewer than two coordinates) the whole
fetch aborts and returns the empty dataset, dropping the well-formed
features too. Non-finite coordinates are never checked and never cause a
drop. -/
theorem fetch_all_or_nothing (features : List Feature) :
    ((∀ f ∈ features, (featureRow f).isSome) →
      get_clean_data features = features.filterMap featureRow)
    ∧ ((∃ f ∈ features, featureRow f = none) → get_clean_data features = []) := by
  constructor
  · intro h
    unfold get_clean_data
    rw [rowsLoop_all_ok h]
  · rintro ⟨f, hf, hbad⟩
    unfold get_clean_data
    rw [rowsLoop_aborts hf hbad]

/-- Witness for C2's amended claim at concrete responses. -/
theorem fetch_all_or_nothing_witness :
    get_clean_data [goodFeat] = [goodFeat].filterMap featureRow
    ∧ get_clean_data [badFeat, goodFeat] = [] :=
  ⟨(fetch_all_or_nothing [goodFeat]).1 (by decide),
   (fetch_all_or_nothing [badFeat, goodFeat]).2 ⟨badFeat, by decide, rfl⟩⟩

/-! ## Visualization Selector (lines 111-138) -/

/-- Python `str()` of a numeric cell as used by the tooltip f-string:
NaN renders as `"nan"`. -/
def Val.render : Val → String
  | .nan => "nan"
  | .num q => toString q

/-- Python `str()` of the `COMMON` cell: a missing value renders `"nan"`. -/
def renderCommon : Option String → String
  | none => "nan"
  | some s => s

/-- Line 118, the `tooltip_html` f-string of the Marker Cluster branch. -/
def tooltipCluster (r : TreeRecord) : String :=
  "<b>" ++ renderCommon r.common ++ "</b><br>Height: " ++ r.height.render
    ++ " ft<br>Diameter: " ++ r.diameter.render ++ " in"

/-- Line 130, the `tooltip_html` f-string of the Markers branch (duplicated
verbatim in the source). -/
def tooltipMarkers (r : TreeRecord) : String :=
  "<b>" ++ renderCommon r.common ++ "</b><br>Height: " ++ r.height.render
    ++ " ft<br>Diameter: " ++ r.diameter.render ++ " in"

/-- Line 112: `df_filtered[['lat', 'lon']].values.tolist()` — coordinate
pairs only, no tooltip field. -/
def heatmapPayload (s : List TreeRecord) : List (Val × Val) :=
  s.map (fun r => (r.lat, r.lon))

/-- One `CircleMarker` handed to the rendering surface: coordinates plus a
tooltip. -/
structure MarkerEntry where
  lat : Val
  lon : Val
  tooltip : String
deriving DecidableEq

/-- Lines 115-126: one marker per `df_filtered` row, added to the cluster. -/
def clusterPayload (s : List TreeRecord) : List MarkerEntry :=
  s.map (fun r => ⟨r.lat, r.lon, tooltipCluster r⟩)

/-- Lines 128-138: one marker per `df_filtered` row, added to the map. -/
def markersPayload (s : List TreeRecord) : List MarkerEntry :=
  s.map (fun r => ⟨r.lat, r.lon, tooltipMarkers r⟩)

/-- `sub` occurs contiguously inside `s`. -/
def strContains (s sub : String) : Prop :=
  ∃ a b, s = a ++ sub ++ b

lemma tooltipMarkers_contains (r : TreeRecord) :
    strContains (tooltipMarkers r) (renderCommon r.common)
    ∧ strContains (tooltipMarkers r) r.height.render
    ∧ strContains (tooltipMarkers r) r.diameter.render := by
  refine ⟨⟨"<b>", "</b><br>Height: " ++ r.height.render
      ++ " ft<br>Diameter: " ++ r.diameter.render ++ " in", ?_⟩,
    ⟨"<b>" ++ renderCommon r.common ++ "</b><br>Height: ",
      " ft<br>Diameter: " ++ r.diameter.render ++ " in", ?_⟩,
    ⟨"<b>" ++ renderCommon r.common ++ "</b><br>Height: " ++ r.height.render
      ++ " ft<br>Diameter: ", " in", ?_⟩⟩ <;>
  simp only [tooltipMarkers, String.append_assoc]

/-- C7: the Heatmap payload has exactly one coordinate pair per subset
record and carries no tooltip field (its entries are bare pairs); the
Markers and Marker Cluster payloads have exactly one entry per record,
are formatted identically to each other, and every tooltip contains the
record's species, height and diameter renderings. -/
theorem visualization_payloads (s : List TreeRecord) :
    (heatmapPayload s).length = s.length
    ∧ (markersPayload s).length = s.length
    ∧ (clusterPayload s).length = s.length
    ∧ markersPayload s = clusterPayload s
    ∧ ∀ r ∈ s,
        strContains (tooltipMarkers r) (renderCommon r.common)
        ∧ strContains (tooltipMarkers r) r.height.render
        ∧ strContains (tooltipMarkers r) r.diameter.render := by
  refine ⟨List.length_map _ _, List.length_map _ _, List.length_map _ _, rfl,
    fun r _ => tooltipMarkers_contains r⟩

/-! ## Exporter (line 160) -/

/-- Minimal CSV quoting as pandas `to_csv` performs it: a field holding a
comma, quote or line break is wrapped in quotes with inner quotes
doubled. -/
def csvField (s : String) : String :=
  if s.any (fun c => c == ',' || c == '"' || c == '\n' || c == '\r')
  then "\"" ++ s.replace "\"" "\"\"" ++ "\"" else s

/-- A numeric cell in the CSV: NaN serializes to the empty field. -/
def csvCellNum : Val → String
  | .nan => ""
  | .num q => toString q

/-- The `COMMON` cell in the CSV: missing serializes to the empty field. -/
def csvCellStr : Option String → String
  | none => ""
  | some s => csvField s

/-- The header row: the DataFrame's columns in their schema order. -/
def csvHeaderLine : String := "COMMON,HEIGHT,DIAMETER,lat,lon"

/-- One data row of the CSV (`index=False`: no index column). -/
def csvRow (r : TreeRecord) : String :=
  String.intercalate ","
    [csvCellStr r.common, csvCellNum r.height, csvCellNum r.diameter,
      csvCellNum r.lat, csvCellNum r.lon]

/-- Each line of `to_csv` output is followed by the line terminator. -/
def joinLines : List String → String
  | [] => ""
  | l :: ls => l ++ "\n" ++ joinLines ls

/-- Line 160, `df_filtered.to_csv(index=False)`: header row first, then
one line per subset row. -/
def toCsvString (s : List TreeRecord) : String :=
  joinLines (csvHeaderLine :: s.map csvRow)

/-- UTF-8 encoding of one Unicode scalar value as bytes. -/
def utf8Enc (c : Char) : List Nat :=
  let n := c.toNat
  if n < 128 then [n]
  else if n < 2048 then [192 + n / 64, 128 + n % 64]
  else if n < 65536 then [224 + n / 4096, 128 + n / 64 % 64, 128 + n % 64]
  else [240 + n / 262144, 128 + n / 4096 % 64, 128 + n / 64 % 64, 128 + n % 64]

/-- UTF-8 encoding of a string as a byte sequence. -/
def utf8Encode (s : String) : List Nat :=
  s.data.flatMap utf8Enc

/-- Line 160, `.encode('utf-8')`: the bytes handed to the download button. -/
def toCsvBytes (s : List TreeRecord) : List Nat :=
  utf8Encode (toCsvString s)

/-- C8: for every subset the exported bytes are the UTF-8 encoding of a
text that starts with the header row (the schema's columns in order)
followed by the line terminator; for the empty subset the output is
exactly the header line and nothing else, with no failure. -/
theorem exporter_csv (s : List TreeRecord) :
    (∃ rest, toCsvBytes s = utf8Encode (csvHeaderLine ++ "\n" ++ rest))
    ∧ toCsvBytes [] = utf8Encode (csvHeaderLine ++ "\n") := by
  constructor
  · exact ⟨joinLines (s.map csvRow), rfl⟩
  · show utf8Encode ((csvHeaderLine ++ "\n") ++ "") = utf8Encode (csvHeaderLine ++ "\n")
    exact congrArg utf8Encode (String.append_empty _)

/-- Witness for C7's tooltip containment at a concrete record. -/
theorem visualization_payloads_witness :
    strContains
      (tooltipMarkers ⟨some "Oak", Val.num 50, Val.num 20, Val.num 45, Val.num (-122)⟩)
      (renderCommon (some "Oak")) :=
  ((visualization_payloads
      [⟨some "Oak", Val.num 50, Val.num 20, Val.num 45, Val.num (-122)⟩]).2.2.2.2
    _ (by decide)).1

/-! ## Slider bounds and the default criteria (lines 47-67) -/

/-- pandas `Series.min` over already-extracted present values. -/
def listMin : List Rat → Option Rat
  | [] => none
  | q :: qs =>
    match listMin qs with
    | none => some q
    | some m => some (min q m)

/-- pandas `Series.max` over already-extracted present values. -/
def listMax : List Rat → Option Rat
  | [] => none
  | q :: qs =>
    match listMax qs with
    | none => some q
    | some m => some (max q m)

/-- pandas `Series.min`: NaN values are skipped; `none` when no value is
present. -/
def colMin (vs : List Val) : Option Rat := listMin (presentVals vs)

/-- pandas `Series.max`: NaN values are skipped; `none` when no value is
present. -/
def colMax (vs : List Val) : Option Rat := listMax (presentVals vs)

/-- Python `int()` on a number: truncation toward zero. -/
def pyInt (q : Rat) : Int := q.num.tdiv (q.den : Int)

/-- Lines 47-67: the sidebar's default selections. The species selectbox
defaults to "All"; each slider is bounded by `int(col.min())` and
`int(col.max())` and defaults to that full range. `none` models the
case where a column has no present value (`int(nan)` raises there). -/
def defaultCriteria (ds : List TreeRecord) : Option FilterCriteria :=
  match colMin (ds.map TreeRecord.height), colMax (ds.map TreeRecord.height),
        colMin (ds.map TreeRecord.diameter), colMax (ds.map TreeRecord.diameter) with
  | some ha, some hb, some da, some db =>
      some ⟨"All", (pyInt ha : Rat), (pyInt hb : Rat), (pyInt da : Rat), (pyInt db : Rat)⟩
  | _, _, _, _ => none

lemma listMin_le {l : List Rat} {m : Rat} (hm : listMin l = some m) :
    ∀ a ∈ l, m ≤ a := by
  induction l generalizing m with
  | nil => cases hm
  | cons q qs ih =>
    intro a ha
    unfold listMin at hm
    rcases List.mem_cons.1 ha with h | h
    · subst h
      cases hqs : listMin qs with
      | none => rw [hqs] at hm; cases hm; exact le_refl _
      | some m2 => rw [hqs] at hm; cases hm; exact min_le_left _ m2
    · cases hqs : listMin qs with
      | none =>
        cases qs with
        | nil => cases h
        | cons b bs => unfold listMin at hqs; revert hqs; split <;> intro hqs <;> cases hqs
      | some m2 =>
        rw [hqs] at hm; cases hm
        exact le_trans (min_le_right q m2) (ih hqs a h)

lemma listMax_ge {l : List Rat} {m : Rat} (hm : listMax l = some m) :
    ∀ a ∈ l, a ≤ m := by
  induction l generalizing m with
  | nil => cases hm
  | cons q qs ih =>
    intro a ha
    unfold listMax at hm
    rcases List.mem_cons.1 ha with h | h
    · subst h
      cases hqs : listMax qs with
      | none => rw [hqs] at hm; cases hm; exact le_refl _
      | some m2 => rw [hqs] at hm; cases hm; exact le_max_left _ m2
    · cases hqs : listMax qs with
      | none =>
        cases qs with
        | nil => cases h
        | cons b bs => unfold listMax at hqs; revert hqs; split <;> intro hqs <;> cases hqs
      | some m2 =>
        rw [hqs] at hm; cases hm
        exact le_trans (ih hqs a h) (le_max_right q m2)

lemma listMin_mem {l : List Rat} {m : Rat} (hm : listMin l = some m) : m ∈ l := by
  induction l generalizing m with
  | nil => cases hm
  | cons q qs ih =>
    unfold listMin at hm
    cases hqs : listMin qs with
    | none => rw [hqs] at hm; cases hm; exact List.mem_cons_self q qs
    | some m2 =>
      rw [hqs] at hm; cases hm
      rcases min_choice q m2 with h | h <;> rw [h]
      · exact List.mem_cons_self q qs
      · exact List.mem_cons_of_mem q (ih hqs)

lemma listMax_mem {l : List Rat} {m : Rat} (hm : listMax l = some m) : m ∈ l := by
  induction l generalizing m with
  | nil => cases hm
  | cons q qs ih =>
    unfold listMax at hm
    cases hqs : listMax qs with
    | none => rw [hqs] at hm; cases hm; exact List.mem_cons_self q qs
    | some m2 =>
      rw [hqs] at hm; cases hm
      rcases max_choice q m2 with h | h <;> rw [h]
      · exact List.mem_cons_self q qs
      · exact List.mem_cons_of_mem q (ih hqs)

lemma mem_presentVals {l : List Val} {q : Rat} :
    q ∈ presentVals l ↔ Val.num q ∈ l := by
  unfold presentVals
  rw [List.mem_filterMap]
  constructor
  · rintro ⟨v, hv, hfq⟩
    cases v with
    | nan => cases hfq
    | num p => cases hfq; exact hv
  · intro h
    exact ⟨Val.num q, h, rfl⟩

lemma pyInt_intCast (n : Int) : pyInt ((n : Int) : Rat) = n := by
  simp [pyInt, Rat.num_intCast, Rat.den_intCast, Int.tdiv_one]

/-- C9 amended: the slider bounds are the observed column min/max passed
through Python `int()` truncation toward zero, not the exact observed
min/max. When every present height and diameter is an integer the
truncation is the identity: the bounds then equal the observed min/max
and, with the default criteria (species "All", full slider ranges), every
record with present height and diameter is in the filtered subset. -/
theorem defaultCriteria_full_range (ds : List TreeRecord) (c : FilterCriteria)
    (hc : defaultCriteria ds = some c)
    (hint : ∀ q ∈ presentVals (ds.map TreeRecord.height)
        ++ presentVals (ds.map TreeRecord.diameter), ∃ n : Int, q = (n : Rat))
    (r : TreeRecord) (hr : r ∈ ds) (qh qd : Rat)
    (hh : r.height = Val.num qh) (hd : r.diameter = Val.num qd) :
    c.choice = "All"
    ∧ colMin (ds.map TreeRecord.height) = some c.heightLo
    ∧ colMax (ds.map TreeRecord.height) = some c.heightHi
    ∧ colMin (ds.map TreeRecord.diameter) = some c.diameterLo
    ∧ colMax (ds.map TreeRecord.diameter) = some c.diameterHi
    ∧ r ∈ applyFilter ds c := by
  have hintH : ∀ q ∈ presentVals (ds.map TreeRecord.height), ∃ n : Int, q = (n : Rat) :=
    fun q hq => hint q (List.mem_append_left _ hq)
  have hintD : ∀ q ∈ presentVals (ds.map TreeRecord.diameter), ∃ n : Int, q = (n : Rat) :=
    fun q hq => hint q (List.mem_append_right _ hq)
  have hqhMem : qh ∈ presentVals (ds.map TreeRecord.height) :=
    mem_presentVals.2 (List.mem_map.2 ⟨r, hr, by rw [hh]⟩)
  have hqdMem : qd ∈ presentVals (ds.map TreeRecord.diameter) :=
    mem_presentVals.2 (List.mem_map.2 ⟨r, hr, by rw [hd]⟩)
  unfold defaultCriteria at hc
  split at hc
  case h_2 => cases hc
  case h_1 ha hb da db h1 h2 h3 h4 =>
    cases hc
    obtain ⟨na, hna⟩ := hintH ha (listMin_mem h1)
    obtain ⟨nb, hnb⟩ := hintH hb (listMax_mem h2)
    obtain ⟨nc, hnc⟩ := hintD da (listMin_mem h3)
    obtain ⟨nd, hnd⟩ := hintD db (listMax_mem h4)
    have ea : ((pyInt ha : Int) : Rat) = ha := by rw [hna, pyInt_intCast]
    have eb : ((pyInt hb : Int) : Rat) = hb := by rw [hnb, pyInt_intCast]
    have ec : ((pyInt da : Int) : Rat) = da := by rw [hnc, pyInt_intCast]
    have ed : ((pyInt db : Int) : Rat) = db := by rw [hnd, pyInt_intCast]
    refine ⟨rfl, by rw [h1, ea], by rw [h2, eb], by rw [h3, ec], by rw [h4, ed], ?_⟩
    refine (mem_applyFilter ds _ r).2 ⟨hr, Or.inl rfl, ⟨qh, hh, ?_, ?_⟩, ⟨qd, hd, ?_, ?_⟩⟩
    · show ((pyInt ha : Int) : Rat) ≤ qh
      rw [ea]; exact listMin_le h1 qh hqhMem
    · show qh ≤ ((pyInt hb : Int) : Rat)
      rw [eb]; exact listMax_ge h2 qh hqhMem
    · show ((pyInt da : Int) : Rat) ≤ qd
      rw [ec]; exact listMin_le h3 qd hqdMem
    · show qd ≤ ((pyInt db : Int) : Rat)
      rw [ed]; exact listMax_ge h4 qd hqdMem

/-- A dataset whose observed maximum height is not an integer. -/
def fracDs : List TreeRecord :=
  [⟨some "Oak", Val.num (mkRat 161 2), Val.num 20, Val.num 45, Val.num (-122)⟩]

/-- C9 counterexample: on a dataset whose only tree is 80.5 ft tall, the
offered height bounds are `int(80.5) = 80` on both ends — not the observed
min/max 80.5 — and under the default full-range criteria the filtered
subset is empty, so not every record with present height and diameter is
included. -/
theorem sliderBounds_counterexample :
    defaultCriteria fracDs = some ⟨"All", 80, 80, 20, 20⟩
    ∧ colMax (fracDs.map TreeRecord.height) = some (mkRat 161 2)
    ∧ (mkRat 161 2 ≠ 80)
    ∧ applyFilter fracDs ⟨"All", 80, 80, 20, 20⟩ = [] := by
  decide

/-- An all-integer dataset for the C9 witness. -/
def intDs : List TreeRecord :=
  [⟨some "Oak", Val.num 50, Val.num 20, Val.num 45, Val.num (-122)⟩,
   ⟨some "Pine", Val.num 80, Val.num 30, Val.num 45, Val.num (-122)⟩]

/-- The default criteria produced for `intDs`. -/
def intCrit : FilterCriteria := ⟨"All", 50, 80, 20, 30⟩

/-- Witness for C9's amended claim at a concrete all-integer dataset. -/
theorem defaultCriteria_full_range_witness :
    intCrit.choice = "All"
    ∧ colMin (intDs.map TreeRecord.height) = some intCrit.heightLo
    ∧ colMax (intDs.map TreeRecord.height) = some intCrit.heightHi
    ∧ colMin (intDs.map TreeRecord.diameter) = some intCrit.diameterLo
    ∧ colMax (intDs.map TreeRecord.diameter) = some intCrit.diameterHi
    ∧ (⟨some "Oak", Val.num 50, Val.num 20, Val.num 45, Val.num (-122)⟩ : TreeRecord)
        ∈ applyFilter intDs intCrit :=
  defaultCriteria_full_range intDs intCrit (by decide)
    (by
      intro q hq
      simp only [intDs, List.map, presentVals, List.filterMap, List.cons_append,
        List.nil_append, List.mem_cons, List.not_mem_nil, or_false] at hq
      rcases hq with rfl | rfl | rfl | rfl
      · exact ⟨50, by norm_num⟩
      · exact ⟨80, by norm_num⟩
      · exact ⟨20, by norm_num⟩
      · exact ⟨30, by norm_num⟩)
    _ (by decide) 50 20 rfl rfl

end PortlandTrees
